import Mathlib

/-!
Verification of the Voidrun sandbox / FaaS platform core against its
natural-language specification.  The definitions below are a shallow
embedding of the Rust sources: pure record types mirror the structs in
`src/sandbox/mod.rs`, `src/proxy/mod.rs`, `src/faas/mod.rs` and
`src/api/mod.rs`; the stateful manager and FaaS operations are embedded
as explicit state-passing functions whose nondeterministic inputs
(results of Docker engine calls, process outcomes, OS port availability)
are passed in as parameters.
-/

namespace Voidrun

/-- `SandboxFile` from `src/sandbox/mod.rs`. -/
structure SandboxFile where
  path : String
  content : String
  is_executable : Option Bool
deriving DecidableEq, Repr

/-- `SandboxMode` from `src/sandbox/mod.rs`. -/
inductive SandboxMode where
  | OneShot
  | Persistent
deriving DecidableEq, Repr

/-- `SandboxRequest` from `src/sandbox/mod.rs`.  Environment maps
are embedded as association lists. -/
structure SandboxRequest where
  id : String
  runtime : String
  code : String
  entry_point : Option String
  timeout_ms : Nat
  memory_limit_mb : Nat
  env_vars : List (String × String)
  files : Option (List SandboxFile)
  mode : Option SandboxMode
  install_deps : Option Bool
  dev_server : Option Bool
deriving DecidableEq, Repr

/-- `SandboxResponse` from `src/sandbox/mod.rs`. -/
structure SandboxResponse where
  success : Bool
  stdout : String
  stderr : String
  exit_code : Option Int
  execution_time_ms : Nat
  is_running : Option Bool
  dev_server_url : Option String
deriving DecidableEq, Repr

/-- `SandboxStatus` from `src/sandbox/mod.rs`. -/
inductive SandboxStatus where
  | Created
  | Installing
  | Running
  | DevServer
  | Completed
  | Failed
  | Terminated
deriving DecidableEq, Repr

/-- `SandboxBackendType` from `src/sandbox/backend/mod.rs`
(default features: Docker and Nsjail). -/
inductive SandboxBackendType where
  | Docker
  | Nsjail
deriving DecidableEq, Repr

/-- `Sandbox` from `src/sandbox/mod.rs`; `created_at` is an abstract
timestamp. -/
structure Sandbox where
  id : String
  request : SandboxRequest
  backend_type : SandboxBackendType
  created_at : Nat
  status : SandboxStatus
  container_id : Option String
  dev_server_port : Option Nat
deriving DecidableEq, Repr

/-- `Sandbox::new` from `src/sandbox/mod.rs`: status `Created`, no
container id, no dev-server port.  The clock reading is a parameter. -/
def Sandbox.new (request : SandboxRequest) (backend_type : SandboxBackendType)
    (now : Nat) : Sandbox :=
  { id := request.id
    request := request
    backend_type := backend_type
    created_at := now
    status := SandboxStatus.Created
    container_id := none
    dev_server_port := none }

/-! ### Docker backend: one-shot execution (`DockerBackend::execute_in_container`) -/

/-- One multiplexed chunk of the Docker exec output stream
(`bollard::container::LogOutput` plus the stream-error case), as
consumed by the loop in `execute_in_container`. -/
inductive LogChunk where
  | out (s : String)
  | err (s : String)
  | other
  | streamErr (e : String)
deriving DecidableEq, Repr

/-- The output-collection loop of `execute_in_container`: stdout chunks
are appended to the stdout buffer, stderr chunks to the stderr buffer,
stream errors are appended to stderr as `Stream error: e`, and other
chunk kinds are dropped. -/
def collectChunks : List LogChunk → String × String
  | [] => ("", "")
  | LogChunk.out s :: rest =>
      let (so, se) := collectChunks rest
      (s ++ so, se)
  | LogChunk.err s :: rest =>
      let (so, se) := collectChunks rest
      (so, s ++ se)
  | LogChunk.other :: rest => collectChunks rest
  | LogChunk.streamErr e :: rest =>
      let (so, se) := collectChunks rest
      (so, ("Stream error: " ++ e) ++ se)

/-- Outcome of `timeout(timeout_duration, start_exec(..))` in
`execute_in_container`: the stream was attached and fully read, the
exec detached, `start_exec` itself errored, or the wall-clock deadline
expired. -/
inductive DockerExecOutcome where
  | attached (chunks : List LogChunk)
  | detached
  | startErr (e : String)
  | timedOut
deriving DecidableEq, Repr

/-- The final `match exec_result` of `DockerBackend::execute_in_container`
(one-shot path, `src/sandbox/backend/docker.rs` lines 687-751).
`success` is `stderr.is_empty()`; the reported exit code is derived from
`success`, the actual process exit status is never inspected. -/
def dockerOneShotResponse (outcome : DockerExecOutcome)
    (execution_time : Nat) : SandboxResponse :=
  match outcome with
  | DockerExecOutcome.attached chunks =>
      let (so, se) := collectChunks chunks
      let success : Bool := se = ""
      { success := success
        stdout := so
        stderr := se
        exit_code := some (if success then 0 else 1)
        execution_time_ms := execution_time
        is_running := some false
        dev_server_url := none }
  | DockerExecOutcome.detached =>
      { success := false
        stdout := ""
        stderr := "Execution detached unexpectedly"
        exit_code := some 1
        execution_time_ms := execution_time
        is_running := some false
        dev_server_url := none }
  | DockerExecOutcome.startErr e =>
      { success := false
        stdout := ""
        stderr := "Execution error: " ++ e
        exit_code := some 1
        execution_time_ms := execution_time
        is_running := some false
        dev_server_url := none }
  | DockerExecOutcome.timedOut =>
      { success := false
        stdout := ""
        stderr := "Execution timed out"
        exit_code := some 124
        execution_time_ms := execution_time
        is_running := some false
        dev_server_url := none }

/-- Every arm of the `match` in `execute_in_container` returns
`Ok(SandboxResponse)`; errors can only arise earlier (file
materialization, exec creation). -/
def dockerOneShotResult (outcome : DockerExecOutcome)
    (execution_time : Nat) : Except String SandboxResponse :=
  Except.ok (dockerOneShotResponse outcome execution_time)

/-! ### Nsjail backend: one-shot execution (`NsjailBackend::execute_with_nsjail`) -/

/-- Outcome of spawning the jail process and awaiting it under the
tokio timeout in `execute_with_nsjail`: the process finished with an
exit status (`code = none` stands for death by signal), waiting errored,
the wall-clock deadline expired, or the spawn itself failed. -/
inductive NsjailExecOutcome where
  | finished (stdout stderr : String) (code : Option Int)
  | waitErr (e : String)
  | timedOut
  | spawnErr (e : String)
deriving DecidableEq, Repr

/-- `ExitStatus::success()` in Rust: the process exited with code zero. -/
def statusSuccess (code : Option Int) : Bool :=
  code = some 0

/-- The result construction of `NsjailBackend::execute_with_nsjail`
(`src/sandbox/backend/nsjail.rs` lines 133-196).  `success` is
`output.status.success()`, independent of stderr. -/
def nsjailOneShotResponse (outcome : NsjailExecOutcome)
    (execution_time : Nat) : SandboxResponse :=
  match outcome with
  | NsjailExecOutcome.finished so se code =>
      { success := statusSuccess code
        stdout := so
        stderr := se
        exit_code := code
        execution_time_ms := execution_time
        is_running := some false
        dev_server_url := none }
  | NsjailExecOutcome.waitErr e =>
      { success := false
        stdout := ""
        stderr := "Process error: " ++ e
        exit_code := some 1
        execution_time_ms := execution_time
        is_running := some false
        dev_server_url := none }
  | NsjailExecOutcome.timedOut =>
      { success := false
        stdout := ""
        stderr := "Execution timed out"
        exit_code := some 124
        execution_time_ms := execution_time
        is_running := some false
        dev_server_url := none }
  | NsjailExecOutcome.spawnErr e =>
      { success := false
        stdout := ""
        stderr := "Failed to spawn process: " ++ e
        exit_code := some 1
        execution_time_ms := execution_time
        is_running := some false
        dev_server_url := none }

/-- Every arm of the outcome `match` in `execute_with_nsjail` returns
`Ok(SandboxResponse)`. -/
def nsjailOneShotResult (outcome : NsjailExecOutcome)
    (execution_time : Nat) : Except String SandboxResponse :=
  Except.ok (nsjailOneShotResponse outcome execution_time)

/-! ### Port allocator (`src/proxy/mod.rs`) and Docker port selection -/

/-- `PortAllocator` from `src/proxy/mod.rs`: its entire state is the
`allocated_ports` map (embedded as an association list).  The source
defines exactly two operations on it: `new` and `get_port`. -/
structure PortAllocator where
  allocated_ports : List (String × Nat)
deriving DecidableEq, Repr

/-- `PortAllocator::new(_start_port)`: the start-port argument is bound
as `_start_port` and discarded; the map starts empty. -/
def PortAllocator.new (_start_port : Nat) : PortAllocator :=
  { allocated_ports := [] }

/-- `PortAllocator::get_port`: lookup in the map. -/
def PortAllocator.get_port (a : PortAllocator) (sandbox_id : String) : Option Nat :=
  (a.allocated_ports.find? (fun p => p.1 = sandbox_id)).map (·.2)

/-- `DockerBackend::find_available_port`
(`src/sandbox/backend/docker.rs` lines 107-121): scan ports
8080..8999 for one that can currently be bound on loopback (embedded as
membership in the list of already-bound ports) and return the first
free one; fall back to 8080 when all are taken.  The chosen port is not
recorded anywhere. -/
def find_available_port (boundPorts : List Nat) : Nat :=
  match (List.range' 8080 920).find? (fun p => ¬ p ∈ boundPorts) with
  | some p => p
  | none => 8080

/-- The host-port decision of `DockerBackend::create_container`
(`src/sandbox/backend/docker.rs` lines 148-153): for a persistent
dev-server request with no caller-supplied port, take
`find_available_port`; otherwise keep the caller-supplied option. -/
def createContainerHostPort (request : SandboxRequest) (host_port : Option Nat)
    (boundPorts : List Nat) : Option Nat :=
  if request.dev_server.getD false ∧ request.mode = some SandboxMode.Persistent then
    match host_port with
    | some p => some p
    | none => some (find_available_port boundPorts)
  else
    host_port

/-! ### Docker backend: cleanup and `update_files` -/

/-- `DockerBackend::cleanup_sandbox`
(`src/sandbox/backend/docker.rs` lines 779-791): issue a forced
`remove_container` for the container named by the sandbox id and
propagate its error.  The engine removes an existing container and
fails with a not-found error otherwise; the live-container set is
embedded as a list of names. -/
def dockerCleanupSandbox (containers : List String) (sandbox_id : String) :
    Except String (List String) :=
  if sandbox_id ∈ containers then
    Except.ok (containers.filter (fun c => ¬ c = sandbox_id))
  else
    Except.error "Failed to remove container"

/-- `NsjailBackend::cleanup_sandbox`
(`src/sandbox/backend/nsjail.rs` lines 213-220): remove the sandbox
directory only when it exists; an absent directory is a no-op success.
The temp-directory contents are embedded as a list of directory
names. -/
def nsjailCleanupSandbox (dirs : List String) (sandbox_id : String) :
    Except String (List String) :=
  if sandbox_id ∈ dirs then
    Except.ok (dirs.filter (fun d => ¬ d = sandbox_id))
  else
    Except.ok dirs

/-- Success or failure of each Docker engine call made while
`DockerBackend::update_files` processes one file.  `create_exec` and
`start_exec` are separate calls with different error handling in the
source. -/
structure FileOpOutcomes where
  mkdirCreateExecOk : Bool
  mkdirStartExecOk : Bool
  writeCreateExecOk : Bool
  writeStartExecOk : Bool
  chmodCreateExecOk : Bool
  chmodStartExecOk : Bool
deriving DecidableEq, Repr

/-- All engine calls succeed. -/
def FileOpOutcomes.allOk : FileOpOutcomes :=
  { mkdirCreateExecOk := true
    mkdirStartExecOk := true
    writeCreateExecOk := true
    writeStartExecOk := true
    chmodCreateExecOk := true
    chmodStartExecOk := true }

/-- Split a character list on `/`, mirroring path-component structure. -/
def splitOnSlash : List Char → List (List Char)
  | [] => [[]]
  | c :: rest =>
      let r := splitOnSlash rest
      if c = '/' then
        [] :: r
      else
        match r with
        | [] => [[c]]
        | h :: t => (c :: h) :: t

/-- `Path::new(&file.path).parent()` mapped to the source's guard for
the relative paths `update_files` receives (the function prefixes
`/sandbox/` itself): the parent component list is nonempty and the
parent is neither the empty string nor `.`. -/
def hasRealParent (path : String) : Bool :=
  let parts := (splitOnSlash path.toList).dropLast
  ¬ parts = [] ∧ ¬ parts = [[]] ∧ ¬ parts = [['.']]

/-- One iteration of the `for file in files` loop of
`DockerBackend::update_files` (`src/sandbox/backend/docker.rs`
lines 798-850).  Per the source: a failing `create_exec` for the mkdir
propagates (`?`); a failing `start_exec` for the mkdir only logs a
warning; a failing `create_exec` for the content write propagates; a
failing `start_exec` for the content write propagates via `map_err`; a
failing `create_exec` for the chmod propagates; a failing `start_exec`
for the chmod only logs a warning.  On success the written path is
returned. -/
def updateOneFile (file : SandboxFile) (ops : FileOpOutcomes) :
    Except String String :=
  if hasRealParent file.path ∧ ¬ ops.mkdirCreateExecOk then
    Except.error "Failed to create exec"
  else if ¬ ops.writeCreateExecOk then
    Except.error "Failed to create exec"
  else if ¬ ops.writeStartExecOk then
    Except.error ("Failed to update file " ++ file.path)
  else if file.is_executable.getD false ∧ ¬ ops.chmodCreateExecOk then
    Except.error "Failed to create exec"
  else
    Except.ok ("/sandbox/" ++ file.path)

/-- `DockerBackend::update_files`: fold `updateOneFile` over the file
list, stopping at the first propagated error and returning the list of
paths written so far otherwise. -/
def dockerUpdateFiles : List (SandboxFile × FileOpOutcomes) →
    Except String (List String)
  | [] => Except.ok []
  | (file, ops) :: rest =>
      match updateOneFile file ops with
      | Except.error e => Except.error e
      | Except.ok written =>
          match dockerUpdateFiles rest with
          | Except.error e => Except.error e
          | Except.ok ws => Except.ok (written :: ws)

/-! ### Persistent execution result (`DockerBackend::execute_persistent_container`) -/

/-- The success response built at the end of
`DockerBackend::execute_persistent_container`
(`src/sandbox/backend/docker.rs` lines 556-577).  The function reaches
this point only when every prior step - file materialization, optional
install, dev-server start and, for dev-server requests, the health
check - succeeded; any failure returns `Err` earlier. -/
def persistentSetupResponse (dev_server : Bool) (execution_time : Nat) :
    SandboxResponse :=
  { success := true
    stdout :=
      if dev_server then
        "Persistent container with dev server setup completed"
      else
        "Persistent container setup completed"
    stderr := ""
    exit_code := some 0
    execution_time_ms := execution_time
    is_running := some true
    dev_server_url := some "http://localhost:3000" }

/-! ### Sandbox manager (`src/sandbox/manager.rs`) -/

/-- A call from the manager into the backend trait, recorded as an
effect so that theorems can state which operations reach the
backend. -/
inductive BackendCall where
  | createSandbox (request : SandboxRequest)
  | executeSandbox (request : SandboxRequest)
  | cleanupSandbox (sandbox_id : String)
  | updateFilesCall (sandbox_id : String) (files : List SandboxFile)
  | restartProcess (sandbox_id : String) (command : String)
deriving DecidableEq, Repr

/-- The `sandboxes: HashMap<String, Sandbox>` registry of
`SandboxManager`, embedded as an association list keyed by sandbox
id. -/
structure ManagerState where
  sandboxes : List (String × Sandbox)
deriving DecidableEq, Repr

/-- Registry lookup (`self.sandboxes.get`). -/
def ManagerState.lookup (st : ManagerState) (id : String) : Option Sandbox :=
  (st.sandboxes.find? (fun p => p.1 = id)).map (·.2)

/-- `HashMap::insert` on the registry: replace an existing entry for
the key or append a fresh one. -/
def ManagerState.insert (st : ManagerState) (id : String) (sb : Sandbox) :
    ManagerState :=
  if (st.sandboxes.find? (fun p => p.1 = id)).isSome then
    { sandboxes := st.sandboxes.map (fun p => if p.1 = id then (id, sb) else p) }
  else
    { sandboxes := st.sandboxes ++ [(id, sb)] }

/-- `HashMap::remove` on the registry. -/
def ManagerState.remove (st : ManagerState) (id : String) : ManagerState :=
  { sandboxes := st.sandboxes.filter (fun p => ¬ p.1 = id) }

/-- Update the status of the sandbox stored under `id`. -/
def ManagerState.setStatus (st : ManagerState) (id : String)
    (status : SandboxStatus) : ManagerState :=
  { sandboxes := st.sandboxes.map
      (fun p => if p.1 = id then (p.1, { p.2 with status := status }) else p) }

/-- `SandboxManager::create_sandbox` (`src/sandbox/manager.rs` lines
29-36): build the `Sandbox` record, call `backend.create_sandbox` and
propagate its error with `?`; only after the backend call succeeded is
the record inserted into the registry.  The backend call result and the
clock are parameters. -/
def managerCreateSandbox (st : ManagerState) (request : SandboxRequest)
    (backend_type : SandboxBackendType) (now : Nat)
    (backendResult : Except String Unit) :
    Except String Unit × ManagerState × List BackendCall :=
  let sandbox := Sandbox.new request backend_type now
  match backendResult with
  | Except.error e => (Except.error e, st, [BackendCall.createSandbox request])
  | Except.ok _ =>
      (Except.ok (), st.insert request.id sandbox,
        [BackendCall.createSandbox request])

/-- `SandboxManager::execute_sandbox` (`src/sandbox/manager.rs` lines
38-53): look up the sandbox (error if absent), set its status to
`Running`, call `backend.execute_sandbox` (propagating an error with
`?`, which leaves the status at `Running`), then set the status to
`Completed` when `response.success` and to `Failed` otherwise. -/
def managerExecuteSandbox (st : ManagerState) (sandbox_id : String)
    (backendResult : Except String SandboxResponse) :
    Except String SandboxResponse × ManagerState × List BackendCall :=
  match st.lookup sandbox_id with
  | none =>
      (Except.error ("Sandbox " ++ sandbox_id ++ " not found"), st, [])
  | some sandbox =>
      let running := st.setStatus sandbox_id SandboxStatus.Running
      match backendResult with
      | Except.error e =>
          (Except.error e, running, [BackendCall.executeSandbox sandbox.request])
      | Except.ok response =>
          let final :=
            if response.success then SandboxStatus.Completed
            else SandboxStatus.Failed
          (Except.ok response, running.setStatus sandbox_id final,
            [BackendCall.executeSandbox sandbox.request])

/-- `SandboxManager::delete_sandbox` (`src/sandbox/manager.rs` lines
60-66): remove the record (error if absent), then call
`backend.cleanup_sandbox` and propagate its error with `?`.  The record
stays removed even when cleanup fails. -/
def managerDeleteSandbox (st : ManagerState) (sandbox_id : String)
    (cleanupResult : Except String Unit) :
    Except String Unit × ManagerState × List BackendCall :=
  match st.lookup sandbox_id with
  | none =>
      (Except.error ("Sandbox " ++ sandbox_id ++ " not found"), st, [])
  | some _ =>
      let removed := st.remove sandbox_id
      match cleanupResult with
      | Except.error e =>
          (Except.error e, removed, [BackendCall.cleanupSandbox sandbox_id])
      | Except.ok _ =>
          (Except.ok (), removed, [BackendCall.cleanupSandbox sandbox_id])

/-- `SandboxManager::add_files_to_sandbox` (`src/sandbox/manager.rs`
lines 100-112): look up the sandbox (error if absent) and extend the
`files` field of the stored request snapshot, or set it when it was
`None`.  No backend operation is invoked. -/
def managerAddFilesToSandbox (st : ManagerState) (sandbox_id : String)
    (files : List SandboxFile) :
    Except String Unit × ManagerState × List BackendCall :=
  match st.lookup sandbox_id with
  | none =>
      (Except.error ("Sandbox " ++ sandbox_id ++ " not found"), st, [])
  | some sandbox =>
      let newFiles :=
        match sandbox.request.files with
        | some existing => some (existing ++ files)
        | none => some files
      let updated := { sandbox with request := { sandbox.request with files := newFiles } }
      (Except.ok (), st.insert sandbox_id updated, [])

/-! ### API handler `create_sandbox` (`src/api/handlers.rs`) -/

/-- `CreateSandboxRequest` from `src/api/mod.rs`, as deserialized by the
HTTP layer. -/
structure CreateSandboxRequest where
  runtime : String
  code : String
  entry_point : Option String
  timeout_ms : Option Nat
  memory_limit_mb : Option Nat
  env_vars : Option (List (String × String))
  files : Option (List SandboxFile)
  mode : Option String
  install_deps : Option Bool
  dev_server : Option Bool
deriving DecidableEq, Repr

/-- `SandboxInfo` from `src/api/mod.rs`. -/
structure SandboxInfo where
  id : String
  status : String
  runtime : String
  created_at : String
  timeout_ms : Nat
  memory_limit_mb : Nat
deriving DecidableEq, Repr

/-- The `SandboxRequest` construction in the `create_sandbox` handler
(`src/api/handlers.rs` lines 77-96): defaults `timeout_ms = 30000` and
`memory_limit_mb = 512`, mode string `persistent` maps to `Persistent`
and anything else to `OneShot`.  No field is validated. -/
def buildSandboxRequest (sandbox_id : String) (req : CreateSandboxRequest) :
    SandboxRequest :=
  { id := sandbox_id
    runtime := req.runtime
    code := req.code
    entry_point := req.entry_point
    timeout_ms := req.timeout_ms.getD 30000
    memory_limit_mb := req.memory_limit_mb.getD 512
    env_vars := req.env_vars.getD []
    files := req.files
    mode := req.mode.map (fun m =>
      if m = "persistent" then SandboxMode.Persistent else SandboxMode.OneShot)
    install_deps := req.install_deps
    dev_server := req.dev_server }

/-- The `create_sandbox` handler (`src/api/handlers.rs` lines 71-113):
generate an id, build the request without any validation, call
`manager.create_sandbox` and answer 500 on error or the `SandboxInfo`
on success. -/
def createSandboxHandler (st : ManagerState) (sandbox_id : String)
    (req : CreateSandboxRequest) (backend_type : SandboxBackendType) (now : Nat)
    (backendResult : Except String Unit) (created_at : String) :
    Except Nat SandboxInfo × ManagerState × List BackendCall :=
  let sandbox_req := buildSandboxRequest sandbox_id req
  let (res, st2, calls) :=
    managerCreateSandbox st sandbox_req backend_type now backendResult
  match res with
  | Except.ok _ =>
      (Except.ok
        { id := sandbox_id
          status := "created"
          runtime := req.runtime
          created_at := created_at
          timeout_ms := req.timeout_ms.getD 30000
          memory_limit_mb := req.memory_limit_mb.getD 512 },
        st2, calls)
  | Except.error _ => (Except.error 500, st2, calls)

/-- The `upload_files` handler (`src/api/handlers.rs` lines 166-189):
convert the API files and call `manager.add_files_to_sandbox`, mapping
success to a JSON message and failure to 404. -/
def uploadFilesHandler (st : ManagerState) (sandbox_id : String)
    (files : List SandboxFile) :
    Except Nat String × ManagerState × List BackendCall :=
  let (res, st2, calls) := managerAddFilesToSandbox st sandbox_id files
  match res with
  | Except.ok _ => (Except.ok "Files uploaded successfully", st2, calls)
  | Except.error _ => (Except.error 404, st2, calls)

/-! ### FaaS manager (`src/faas/mod.rs`) -/

/-- `AutoScaleConfig` from `src/faas/mod.rs`. -/
structure AutoScaleConfig where
  min_instances : Option Nat
  max_instances : Option Nat
  scale_down_after_minutes : Option Nat
deriving DecidableEq, Repr

/-- `FileSpec` from `src/faas/mod.rs`. -/
structure FileSpec where
  path : String
  content : String
  executable : Option Bool
deriving DecidableEq, Repr

/-- `DeploymentRequest` from `src/faas/mod.rs`. -/
structure DeploymentRequest where
  runtime : String
  code : String
  files : Option (List FileSpec)
  env_vars : Option (List (String × String))
  memory_limit_mb : Option Nat
  entry_point : Option String
  auto_scale : Option AutoScaleConfig
  dev_server : Option Bool
deriving DecidableEq, Repr

/-- `DeploymentStatus` from `src/faas/mod.rs`. -/
inductive DeploymentStatus where
  | Deploying
  | Running
  | Scaling
  | Stopped
  | Failed
deriving DecidableEq, Repr

/-- `Deployment` from `src/faas/mod.rs`; timestamps are abstract. -/
structure Deployment where
  id : String
  sandbox_id : String
  url : String
  status : DeploymentStatus
  created_at : Nat
  last_accessed : Nat
  runtime : String
  memory_mb : Nat
  auto_scale : AutoScaleConfig
  request : DeploymentRequest
deriving DecidableEq, Repr

/-- The deployment registry of `FaasManager`, plus the proxy's port
allocator (the two shared structures the undeploy claim is about). -/
structure FaasState where
  deployments : List (String × Deployment)
  port_allocator : PortAllocator
deriving DecidableEq, Repr

/-- Deployment registry lookup. -/
def FaasState.lookupDeployment (fs : FaasState) (deployment_id : String) :
    Option Deployment :=
  (fs.deployments.find? (fun p => p.1 = deployment_id)).map (·.2)

/-- `FaasManager::get_deployment` (`src/faas/mod.rs` lines 238-259)
restricted to its observable answer: `Some` response for a registered
deployment, `None` otherwise (the access-time touch is a timestamp
write on the found record). -/
def faasGetDeployment (fs : FaasState) (deployment_id : String) :
    Option Deployment :=
  fs.lookupDeployment deployment_id

/-- `FaasManager::undeploy` (`src/faas/mod.rs` lines 276-324): remove
the record from the registry under the write lock; when a record was
present, call `manager.delete_sandbox` on its sandbox and deliberately
ignore the result (logged only), returning `Ok`; when absent, return
an error.  The port allocator is never touched. -/
def faasUndeploy (fs : FaasState) (mgr : ManagerState)
    (cleanupResult : Except String Unit) (deployment_id : String) :
    Except String Unit × FaasState × ManagerState × List BackendCall :=
  match fs.lookupDeployment deployment_id with
  | none =>
      (Except.error ("Deployment " ++ deployment_id ++ " not found"),
        fs, mgr, [])
  | some deployment =>
      let fs2 : FaasState :=
        { fs with deployments :=
            fs.deployments.filter (fun p => ¬ p.1 = deployment_id) }
      let (_, mgr2, calls) :=
        managerDeleteSandbox mgr deployment.sandbox_id cleanupResult
      (Except.ok (), fs2, mgr2, calls)

/-! ### Concrete sample inputs used by counterexamples and witnesses -/

/-- A persistent dev-server request, id `s1`. -/
def sampleDevRequest1 : SandboxRequest :=
  { id := "s1"
    runtime := "bun"
    code := "export default 1"
    entry_point := none
    timeout_ms := 300000
    memory_limit_mb := 256
    env_vars := []
    files := none
    mode := some SandboxMode.Persistent
    install_deps := some true
    dev_server := some true }

/-- A second persistent dev-server request, id `s2`. -/
def sampleDevRequest2 : SandboxRequest :=
  { sampleDevRequest1 with id := "s2" }

/-- A registry holding only the sandbox created from
`sampleDevRequest1`. -/
def sampleDevState : ManagerState :=
  { sandboxes := [("s1", Sandbox.new sampleDevRequest1 SandboxBackendType.Docker 0)] }

/-- A create request that violates both validation invariants of the
claim: zero `memory_limit_mb` and `dev_server = true` with one-shot
mode. -/
def invalidCreateRequest : CreateSandboxRequest :=
  { runtime := "node"
    code := "console.log(1)"
    entry_point := none
    timeout_ms := some 5000
    memory_limit_mb := some 0
    env_vars := none
    files := none
    mode := some "oneshot"
    install_deps := none
    dev_server := some true }

/-- A deployment record pointing at sandbox `s1`. -/
def sampleDeployment : Deployment :=
  { id := "d1"
    sandbox_id := "s1"
    url := "http://localhost:3000/faas/d1"
    status := DeploymentStatus.Running
    created_at := 0
    last_accessed := 0
    runtime := "bun"
    memory_mb := 256
    auto_scale :=
      { min_instances := some 0
        max_instances := some 5
        scale_down_after_minutes := some 10 }
    request :=
      { runtime := "bun"
        code := "export default 1"
        files := none
        env_vars := none
        memory_limit_mb := some 256
        entry_point := none
        auto_scale := none
        dev_server := some true } }

/-- A FaaS state holding only `sampleDeployment`, with the allocator
the program constructs at startup. -/
def sampleFaasState : FaasState :=
  { deployments := [("d1", sampleDeployment)]
    port_allocator := PortAllocator.new 8080 }

/-! ## Helper lemmas -/

/-- After filtering out every pair with key `k`, `find?` for key `k`
returns nothing. -/
theorem find?_filter_key_none {α : Type} (l : List (String × α)) (k : String) :
    (l.filter (fun p => ¬ p.1 = k)).find? (fun p => p.1 = k) = none := by
  induction l with
  | nil => rfl
  | cons p rest ih =>
      by_cases h : p.1 = k
      · simp [List.filter_cons, h, ih]
      · simp [List.filter_cons, h, List.find?_cons_of_neg, ih]

/-- `find?` for a key on a keywise-updated association list is the
update of the original `find?` result. -/
theorem find?_map_keyUpdate {α : Type} (l : List (String × α)) (k : String)
    (g : String × α → String × α) (hg : ∀ p, p.1 = k → (g p).1 = k) :
    (l.map (fun p => if p.1 = k then g p else p)).find? (fun p => p.1 = k) =
      (l.find? (fun p => p.1 = k)).map (fun p => g p) := by
  induction l with
  | nil => rfl
  | cons a rest ih =>
      by_cases ha : a.1 = k
      · have h1 : (if a.1 = k then g a else a) = g a := if_pos ha
        have h2 : (g a).1 = k := hg a ha
        simp [h1, List.find?_cons_of_pos, ha, h2]
      · have h1 : (if a.1 = k then g a else a) = a := if_neg ha
        simpa [h1, List.find?_cons_of_neg, ha] using ih

/-- `ManagerState.insert` followed by `lookup` of the same key yields
the inserted sandbox. -/
theorem ManagerState.lookup_insert (st : ManagerState) (id : String) (sb : Sandbox) :
    (st.insert id sb).lookup id = some sb := by
  rcases st with ⟨l⟩
  by_cases h : (l.find? (fun p => p.1 = id)).isSome
  · rcases Option.isSome_iff_exists.mp h with ⟨p0, hp0⟩
    simp only [ManagerState.insert, ManagerState.lookup, h, if_pos]
    rw [find?_map_keyUpdate l id (fun _ => (id, sb)) (fun p _ => rfl), hp0]
    rfl
  · simp only [ManagerState.insert, ManagerState.lookup, h, if_neg,
      Bool.false_eq_true, not_false_eq_true]
    induction l with
    | nil => simp [List.find?_cons_of_pos]
    | cons a rest ih =>
        by_cases ha : a.1 = id
        · exfalso
          apply h
          simp [List.find?_cons_of_pos, ha]
        · have hrest : ¬ (rest.find? (fun p => p.1 = id)).isSome := by
            intro hs
            apply h
            simpa [List.find?_cons_of_neg, ha] using hs
          simpa [List.cons_append, List.find?_cons_of_neg, ha] using ih hrest

/-- `ManagerState.setStatus` rewrites exactly the status of the looked-up
sandbox. -/
theorem ManagerState.lookup_setStatus (st : ManagerState) (id : String)
    (s : SandboxStatus) :
    (st.setStatus id s).lookup id =
      (st.lookup id).map (fun sb => { sb with status := s }) := by
  rcases st with ⟨l⟩
  simp only [ManagerState.setStatus, ManagerState.lookup]
  rw [find?_map_keyUpdate l id (fun p => (p.1, { p.2 with status := s }))
    (fun p hp => hp)]
  cases l.find? (fun p => p.1 = id) <;> rfl

/-! ## Claim C1 -/

/-- C1 (counterexample): the nsjail one-shot backend computes `success`
from the process exit status alone, so a process that exits 0 after
writing only to stderr yields `success = true`, contradicting the claim
that such an execution yields `success = false` (and contradicting
success iff zero exit code and empty stderr). -/
theorem c1_counterexample :
    (nsjailOneShotResponse
      (NsjailExecOutcome.finished "" "warning: deprecated API" (some 0)) 5).success
        = true ∧
    ¬ (nsjailOneShotResponse
      (NsjailExecOutcome.finished "" "warning: deprecated API" (some 0)) 5).stderr
        = "" := by
  constructor
  · rfl
  · decide

/-- C1 (amended): for a Docker one-shot execution whose exec stream was
read to completion, `success` holds iff the collected stderr buffer is
empty, and within the response `success = true` iff the reported exit
code is 0 and stderr is empty - the reported exit code being derived
from stderr emptiness, not from the process status; for an nsjail
one-shot execution that finished, `success` holds iff the process exit
status is code zero, regardless of stderr. -/
theorem c1_one_shot_success_semantics (chunks : List LogChunk)
    (so se : String) (code : Option Int) (t : Nat) :
    ((dockerOneShotResponse (DockerExecOutcome.attached chunks) t).success = true ↔
      (collectChunks chunks).2 = "") ∧
    ((dockerOneShotResponse (DockerExecOutcome.attached chunks) t).success = true ↔
      ((dockerOneShotResponse (DockerExecOutcome.attached chunks) t).exit_code = some 0 ∧
       (dockerOneShotResponse (DockerExecOutcome.attached chunks) t).stderr = "")) ∧
    ((nsjailOneShotResponse (NsjailExecOutcome.finished so se code) t).success = true ↔
      code = some 0) := by
  rcases hc : collectChunks chunks with ⟨o, e⟩
  refine ⟨?_, ?_, ?_⟩
  · simp [dockerOneShotResponse, hc]
  · by_cases he : e = "" <;> simp [dockerOneShotResponse, hc, he]
  · simp [nsjailOneShotResponse, statusSuccess]

/-! ## Claim C2 -/

/-- C2 (counterexample): two distinct persistent dev-server sandboxes
`s1` and `s2` created while no port in the scan range is OS-bound both
receive host port 8080 (the chosen port is not recorded anywhere), so
their ports do not differ; moreover the `PortAllocator` maps neither of
them. -/
theorem c2_counterexample :
    ¬ ("s1" = "s2") ∧
    createContainerHostPort sampleDevRequest1 none [] = some 8080 ∧
    createContainerHostPort sampleDevRequest2 none [] = some 8080 ∧
    (PortAllocator.new 8080).get_port "s1" = none ∧
    (PortAllocator.new 8080).get_port "s2" = none := by
  refine ⟨by decide, ?_, ?_, rfl, rfl⟩ <;> rfl

/-- C2 (amended): the port allocator holds only a sandbox-id-to-port
map with a lookup accessor; it has no allocate operation and no cursor
(the start-port argument of `new` is discarded and the map starts
empty, so `get_port` returns nothing for every id), and dev-server host
ports are instead chosen per container by `find_available_port` without
being recorded, so two persistent dev-server creates performed against
the same set of OS-bound ports choose the same port. -/
theorem c2_allocator_amended :
    (∀ (start : Nat) (id : String), (PortAllocator.new start).get_port id = none) ∧
    (∀ (r1 r2 : SandboxRequest) (bound : List Nat),
      r1.dev_server = some true → r1.mode = some SandboxMode.Persistent →
      r2.dev_server = some true → r2.mode = some SandboxMode.Persistent →
      createContainerHostPort r1 none bound = createContainerHostPort r2 none bound) := by
  constructor
  · intro start id
    rfl
  · intro r1 r2 bound h1 h2 h3 h4
    simp [createContainerHostPort, h1, h2, h3, h4]

/-- C2 (witness): instantiation of `c2_allocator_amended` at concrete
inputs. -/
theorem c2_witness :
    (sampleDevRequest1.dev_server = some true ∧
     sampleDevRequest1.mode = some SandboxMode.Persistent ∧
     sampleDevRequest2.dev_server = some true ∧
     sampleDevRequest2.mode = some SandboxMode.Persistent) ∧
    (PortAllocator.new 9000).get_port "sx" = none ∧
    createContainerHostPort sampleDevRequest1 none [8080, 8081] =
      createContainerHostPort sampleDevRequest2 none [8080, 8081] :=
  ⟨⟨rfl, rfl, rfl, rfl⟩, c2_allocator_amended.1 9000 "sx",
    c2_allocator_amended.2 sampleDevRequest1 sampleDevRequest2 [8080, 8081]
      rfl rfl rfl rfl⟩

/-! ## Claim C3 -/

/-- C3 (counterexample): executing the persistent dev-server sandbox
`s1` with the successful setup response (the one produced after the
health check passes) leaves its status at `Completed`, not
`DevServer`. -/
theorem c3_counterexample :
    ((managerExecuteSandbox sampleDevState "s1"
        (Except.ok (persistentSetupResponse true 7))).2.1.lookup "s1").map
      Sandbox.status = some SandboxStatus.Completed ∧
    ¬ ((managerExecuteSandbox sampleDevState "s1"
        (Except.ok (persistentSetupResponse true 7))).2.1.lookup "s1").map
      Sandbox.status = some SandboxStatus.DevServer := by
  decide

/-- C3 (amended): for every registered sandbox - persistent dev-server
ones included - a successful backend execution moves its status to
`Completed`; the `DevServer` status is never assigned by the
manager. -/
theorem c3_execute_success_sets_completed (st : ManagerState)
    (sandbox_id : String) (sb : Sandbox) (response : SandboxResponse)
    (hlook : st.lookup sandbox_id = some sb) (hs : response.success = true) :
    (managerExecuteSandbox st sandbox_id (Except.ok response)).2.1.lookup sandbox_id =
      some { sb with status := SandboxStatus.Completed } := by
  simp only [managerExecuteSandbox, hlook, hs, if_true]
  rw [ManagerState.lookup_setStatus, ManagerState.lookup_setStatus, hlook]
  rfl

/-- C3 (witness): instantiation of `c3_execute_success_sets_completed`
at the concrete dev-server sandbox `s1`. -/
theorem c3_witness :
    sampleDevState.lookup "s1" =
      some (Sandbox.new sampleDevRequest1 SandboxBackendType.Docker 0) ∧
    (persistentSetupResponse true 7).success = true ∧
    (managerExecuteSandbox sampleDevState "s1"
        (Except.ok (persistentSetupResponse true 7))).2.1.lookup "s1" =
      some { Sandbox.new sampleDevRequest1 SandboxBackendType.Docker 0 with
        status := SandboxStatus.Completed } :=
  ⟨by decide, rfl,
    c3_execute_success_sets_completed sampleDevState "s1"
      (Sandbox.new sampleDevRequest1 SandboxBackendType.Docker 0)
      (persistentSetupResponse true 7) (by decide) rfl⟩

/-! ## Claim C4 -/

/-- C4: in both backends, expiry of the one-shot wall-clock deadline
produces an `Ok` response (not an error) with `success = false`,
`exit_code = 124` and `stderr = "Execution timed out"`. -/
theorem c4_timeout_yields_response (t : Nat) :
    dockerOneShotResult DockerExecOutcome.timedOut t =
      Except.ok
        { success := false, stdout := "", stderr := "Execution timed out",
          exit_code := some 124, execution_time_ms := t,
          is_running := some false, dev_server_url := none } ∧
    nsjailOneShotResult NsjailExecOutcome.timedOut t =
      Except.ok
        { success := false, stdout := "", stderr := "Execution timed out",
          exit_code := some 124, execution_time_ms := t,
          is_running := some false, dev_server_url := none } :=
  ⟨rfl, rfl⟩

/-! ## Claim C5 -/

/-- C5 (counterexample): Docker backend cleanup on an id with no
backing container returns an error rather than success, and after a
successful cleanup a second call on the same id errors as well. -/
theorem c5_counterexample :
    dockerCleanupSandbox ["other-sandbox"] "sandbox-1" =
      Except.error "Failed to remove container" ∧
    dockerCleanupSandbox ["sandbox-1"] "sandbox-1" = Except.ok [] ∧
    dockerCleanupSandbox [] "sandbox-1" =
      Except.error "Failed to remove container" := by
  refine ⟨rfl, ?_, rfl⟩
  rfl

/-- C5 (amended): the nsjail backend cleanup is idempotent and succeeds
on unknown ids (removing the sandbox directory only when it exists),
but the Docker backend cleanup propagates the engine error whenever the
container named by the id does not exist. -/
theorem c5_cleanup_amended :
    (∀ (dirs : List String) (id : String),
      nsjailCleanupSandbox dirs id =
        Except.ok (dirs.filter (fun d => ¬ d = id)) ∧
      nsjailCleanupSandbox (dirs.filter (fun d => ¬ d = id)) id =
        Except.ok (dirs.filter (fun d => ¬ d = id))) ∧
    (∀ (containers : List String) (id : String), ¬ id ∈ containers →
      dockerCleanupSandbox containers id =
        Except.error "Failed to remove container") := by
  constructor
  · intro dirs id
    constructor
    · by_cases h : id ∈ dirs
      · simp [nsjailCleanupSandbox, h]
      · rw [nsjailCleanupSandbox, if_neg h, List.filter_eq_self.mpr]
        intro a ha
        exact decide_eq_true (fun heq => h (heq ▸ ha))
    · have hnotin : ¬ id ∈ dirs.filter (fun d => ¬ d = id) := by
        simp [List.mem_filter]
      rw [nsjailCleanupSandbox, if_neg hnotin]
  · intro containers id h
    rw [dockerCleanupSandbox, if_neg h]

/-- C5 (witness): instantiation of `c5_cleanup_amended` at concrete
inputs. -/
theorem c5_witness :
    (nsjailCleanupSandbox ["sb-a", "sb-b"] "sb-a" =
        Except.ok ((["sb-a", "sb-b"] : List String).filter (fun d => ¬ d = "sb-a")) ∧
     nsjailCleanupSandbox ((["sb-a", "sb-b"] : List String).filter (fun d => ¬ d = "sb-a")) "sb-a" =
        Except.ok ((["sb-a", "sb-b"] : List String).filter (fun d => ¬ d = "sb-a"))) ∧
    (¬ "sb-z" ∈ (["sb-a"] : List String)) ∧
    dockerCleanupSandbox ["sb-a"] "sb-z" =
      Except.error "Failed to remove container" :=
  ⟨c5_cleanup_amended.1 ["sb-a", "sb-b"] "sb-a", by decide,
    c5_cleanup_amended.2 ["sb-a"] "sb-z" (by decide)⟩

/-! ## Claim C6 -/

/-- Engine-call outcomes where only the `start_exec` of the content
write fails. -/
def failingWriteOps : FileOpOutcomes :=
  { FileOpOutcomes.allOk with writeStartExecOk := false }

/-- C6 (counterexample): when the content write of the first file
fails, `update_files` returns an error and skips the remaining files,
contradicting the claim that a content-write failure is logged and
processing continues. -/
theorem c6_counterexample :
    dockerUpdateFiles
      [({ path := "a.js", content := "x", is_executable := none }, failingWriteOps),
       ({ path := "b.js", content := "y", is_executable := none }, FileOpOutcomes.allOk)] =
      Except.error "Failed to update file a.js" := by
  rfl

/-- C6 (amended): `update_files` is fail-open only for the `start_exec`
phases of directory creation and chmod - when every exec creation and
every content-write start succeeds, the whole update succeeds no matter
how many mkdir or chmod starts fail - whereas a content-write failure
(or any failure to create an exec) aborts the call with an error. -/
theorem c6_fail_open_phases (l : List (SandboxFile × FileOpOutcomes))
    (h : ∀ p ∈ l, p.2.mkdirCreateExecOk = true ∧ p.2.writeCreateExecOk = true ∧
      p.2.writeStartExecOk = true ∧ p.2.chmodCreateExecOk = true) :
    dockerUpdateFiles l = Except.ok (l.map (fun p => "/sandbox/" ++ p.1.path)) := by
  induction l with
  | nil => rfl
  | cons p rest ih =>
      obtain ⟨h1, h2, h3, h4⟩ := h p (List.mem_cons_self p rest)
      have hrest := ih (fun q hq => h q (List.mem_cons_of_mem p hq))
      simp [dockerUpdateFiles, updateOneFile, h1, h2, h3, h4, hrest]

/-- C6 (witness): instantiation of `c6_fail_open_phases` at a file
whose mkdir and chmod `start_exec` calls both fail. -/
theorem c6_witness :
    dockerUpdateFiles
      [({ path := "src/app.js", content := "x", is_executable := some true },
        { FileOpOutcomes.allOk with mkdirStartExecOk := false, chmodStartExecOk := false })] =
      Except.ok ["/sandbox/src/app.js"] :=
  c6_fail_open_phases
    [({ path := "src/app.js", content := "x", is_executable := some true },
      { FileOpOutcomes.allOk with mkdirStartExecOk := false, chmodStartExecOk := false })]
    (by decide)

/-! ## Claim C7 -/

/-- C7: undeploying a live deployment removes it from the registry and
returns `Ok` even when the backend sandbox cleanup fails, and
afterwards the port allocator (whose map, built only by
`PortAllocator::new`, is empty) holds no port for the deployment's
sandbox. -/
theorem c7_undeploy_postconditions (fs : FaasState) (mgr : ManagerState)
    (cleanupResult : Except String Unit) (deployment_id : String) (d : Deployment)
    (hd : fs.lookupDeployment deployment_id = some d)
    (halloc : ∃ start, fs.port_allocator = PortAllocator.new start) :
    (faasUndeploy fs mgr cleanupResult deployment_id).1 = Except.ok () ∧
    (faasUndeploy fs mgr cleanupResult deployment_id).2.1.lookupDeployment
      deployment_id = none ∧
    (faasUndeploy fs mgr cleanupResult deployment_id).2.1.port_allocator.get_port
      d.sandbox_id = none := by
  obtain ⟨start, hstart⟩ := halloc
  refine ⟨?_, ?_, ?_⟩
  · simp [faasUndeploy, hd]
  · simp only [faasUndeploy, hd]
    simp only [FaasState.lookupDeployment]
    rw [find?_filter_key_none]
    rfl
  · simp only [faasUndeploy, hd]
    simp only [PortAllocator.get_port, hstart, PortAllocator.new]
    rfl

/-- C7 (witness): instantiation of `c7_undeploy_postconditions` at the
concrete deployment `d1`, with a failing backend cleanup. -/
theorem c7_witness :
    sampleFaasState.lookupDeployment "d1" = some sampleDeployment ∧
    (faasUndeploy sampleFaasState sampleDevState
        (Except.error "remove failed") "d1").1 = Except.ok () ∧
    (faasUndeploy sampleFaasState sampleDevState
        (Except.error "remove failed") "d1").2.1.lookupDeployment "d1" = none ∧
    (faasUndeploy sampleFaasState sampleDevState
        (Except.error "remove failed") "d1").2.1.port_allocator.get_port
      sampleDeployment.sandbox_id = none := by
  have h := c7_undeploy_postconditions sampleFaasState sampleDevState
    (Except.error "remove failed") "d1" sampleDeployment (by rfl) ⟨8080, rfl⟩
  exact ⟨by rfl, h.1, h.2.1, h.2.2⟩

/-! ## Claim C8 -/

/-- C8 (counterexample): a create request with `memory_limit_mb = 0`
and `dev_server = true` in one-shot mode is not rejected - the handler
builds the sandbox request unchanged, answers with the created info,
and the registry contains the new sandbox. -/
theorem c8_counterexample :
    (buildSandboxRequest "sid-1" invalidCreateRequest).memory_limit_mb = 0 ∧
    (buildSandboxRequest "sid-1" invalidCreateRequest).dev_server = some true ∧
    (buildSandboxRequest "sid-1" invalidCreateRequest).mode =
      some SandboxMode.OneShot ∧
    (createSandboxHandler { sandboxes := [] } "sid-1" invalidCreateRequest
        SandboxBackendType.Docker 0 (Except.ok ()) "t0").1 =
      Except.ok
        { id := "sid-1", status := "created", runtime := "node",
          created_at := "t0", timeout_ms := 5000, memory_limit_mb := 0 } ∧
    ¬ (createSandboxHandler { sandboxes := [] } "sid-1" invalidCreateRequest
        SandboxBackendType.Docker 0 (Except.ok ()) "t0").2.1.lookup "sid-1" = none := by
  refine ⟨rfl, rfl, rfl, rfl, ?_⟩
  decide

/-- C8 (amended): the `create_sandbox` handler performs no request
validation: every request - zero `memory_limit_mb` and
`dev_server = true` with one-shot mode included - is passed through
unchanged, and whenever the backend create succeeds the sandbox is
inserted into the registry. -/
theorem c8_no_validation (st : ManagerState) (sandbox_id : String)
    (req : CreateSandboxRequest) (bt : SandboxBackendType) (now : Nat)
    (created_at : String) :
    (createSandboxHandler st sandbox_id req bt now (Except.ok ()) created_at).2.1.lookup
      sandbox_id = some (Sandbox.new (buildSandboxRequest sandbox_id req) bt now) ∧
    (buildSandboxRequest sandbox_id req).memory_limit_mb =
      req.memory_limit_mb.getD 512 ∧
    (buildSandboxRequest sandbox_id req).dev_server = req.dev_server ∧
    (buildSandboxRequest sandbox_id req).mode = req.mode.map (fun m =>
      if m = "persistent" then SandboxMode.Persistent else SandboxMode.OneShot) := by
  refine ⟨?_, rfl, rfl, rfl⟩
  simp only [createSandboxHandler, managerCreateSandbox]
  exact ManagerState.lookup_insert st sandbox_id _

/-! ## Claim C9 -/

/-- C9: the manager inserts the sandbox record only after the backend
create succeeds - on a backend error the error is propagated, the
registry is unchanged, and an id absent before is absent after. -/
theorem c9_create_atomic (st : ManagerState) (request : SandboxRequest)
    (bt : SandboxBackendType) (now : Nat) (e : String)
    (h : st.lookup request.id = none) :
    (managerCreateSandbox st request bt now (Except.error e)).1 = Except.error e ∧
    (managerCreateSandbox st request bt now (Except.error e)).2.1 = st ∧
    (managerCreateSandbox st request bt now (Except.error e)).2.1.lookup
      request.id = none :=
  ⟨rfl, rfl, h⟩

/-- C9 (witness): instantiation of `c9_create_atomic` on an empty
registry with a backend error for an unknown runtime. -/
theorem c9_witness :
    (ManagerState.mk []).lookup sampleDevRequest1.id = none ∧
    (managerCreateSandbox (ManagerState.mk []) sampleDevRequest1
        SandboxBackendType.Docker 0
        (Except.error "Unsupported runtime: zig")).1 =
      Except.error "Unsupported runtime: zig" ∧
    (managerCreateSandbox (ManagerState.mk []) sampleDevRequest1
        SandboxBackendType.Docker 0
        (Except.error "Unsupported runtime: zig")).2.1.lookup
      sampleDevRequest1.id = none := by
  have h := c9_create_atomic (ManagerState.mk []) sampleDevRequest1
    SandboxBackendType.Docker 0 "Unsupported runtime: zig" (by rfl)
  exact ⟨by rfl, h.1, h.2.2⟩

/-! ## Claim C10 -/

/-- C10: for an existing sandbox, `add_files_to_sandbox` succeeds,
performs no backend call, and changes only the `files` field of the
stored request snapshot, appending the given files; the `upload_files`
handler wraps it without adding backend calls. -/
theorem c10_add_files_frame (st : ManagerState) (sandbox_id : String)
    (files : List SandboxFile) (sb : Sandbox)
    (h : st.lookup sandbox_id = some sb) :
    (managerAddFilesToSandbox st sandbox_id files).1 = Except.ok () ∧
    (managerAddFilesToSandbox st sandbox_id files).2.2 = [] ∧
    (managerAddFilesToSandbox st sandbox_id files).2.1.lookup sandbox_id =
      some { sb with request :=
        { sb.request with files := some (sb.request.files.getD [] ++ files) } } ∧
    (uploadFilesHandler st sandbox_id files).1 =
      Except.ok "Files uploaded successfully" ∧
    (uploadFilesHandler st sandbox_id files).2.2 = [] := by
  cases hf : sb.request.files with
  | none =>
      refine ⟨?_, ?_, ?_, ?_, ?_⟩ <;>
        simp [managerAddFilesToSandbox, uploadFilesHandler, h, hf,
          ManagerState.lookup_insert]
  | some existing =>
      refine ⟨?_, ?_, ?_, ?_, ?_⟩ <;>
        simp [managerAddFilesToSandbox, uploadFilesHandler, h, hf,
          ManagerState.lookup_insert]

/-- C10 (witness): instantiation of `c10_add_files_frame` at the
concrete sandbox `s1`. -/
theorem c10_witness :
    sampleDevState.lookup "s1" =
      some (Sandbox.new sampleDevRequest1 SandboxBackendType.Docker 0) ∧
    (managerAddFilesToSandbox sampleDevState "s1"
        [{ path := "b.js", content := "y", is_executable := none }]).1 =
      Except.ok () ∧
    (managerAddFilesToSandbox sampleDevState "s1"
        [{ path := "b.js", content := "y", is_executable := none }]).2.2 = [] := by
  have h := c10_add_files_frame sampleDevState "s1"
    [{ path := "b.js", content := "y", is_executable := none }]
    (Sandbox.new sampleDevRequest1 SandboxBackendType.Docker 0) (by rfl)
  exact ⟨by rfl, h.1, h.2.1⟩

end Voidrun
